import Mathlib

/-!
Verification of the outfit-recommendation core of the AI-Capsule-Wardrobe-Generator
repository (files `outfitgenerator.py`, `wardrobe_model.py`, `app.py`).

The Python code is shallowly embedded:
* items are records; the in-memory store `_ITEMS` is a `List` passed explicitly;
* the CLIP embedding is external to the core (the spec declares the style vector
  opaque beyond cosine similarity), so the embedding type `E` and the similarity
  function `sim : E → E → ℚ` are parameters of the model;
* Python floats are modelled as exact rationals (all constants involved, 0.6,
  0.4, 3.0, 2.5, 1.0, are exactly representable);
* the in-place `while`/`extend` padding loop of `_build_30_outfits` is the
  recursive function `padLoop`.
-/

namespace Wardrobe

/-- One stored wardrobe item, as built by `handle_new_item` in
`wardrobe_model.py` (the rendering-only fields `image_path` / `filename` are
the opaque `sourceReference`; they never influence the core and are omitted). -/
structure Item (E : Type) where
  id : String
  category : String
  color_group : String
  embedding : E
deriving DecidableEq

/-- One candidate outfit combo, as built by `_make_combo`. -/
structure Combo (E : Type) where
  ids : List String
  groups : List String
  embeds : List E
deriving DecidableEq

/-- One day of the produced capsule: `{"day": day, "items": item_ids}` in
`generate_capsule`. -/
structure CapsuleDay where
  day : Nat
  items : List String
deriving DecidableEq

/-- `_make_combo` from `wardrobe_model.py`. -/
def _make_combo {E : Type} (item_list : List (Item E)) : Combo E :=
  ⟨item_list.map (fun it => it.id),
   item_list.map (fun it => it.color_group),
   item_list.map (fun it => it.embedding)⟩

/-- The index pairs visited by the Python idiom
`for i in range(n): for j in range(i+1, n)`, materialised as the ordered list
of element pairs. -/
def pairsOf {α : Type} : List α → List (α × α)
  | [] => []
  | x :: xs => (xs.map (fun y => (x, y))) ++ pairsOf xs

/-- `_pair_color_score` from `wardrobe_model.py`. -/
def _pair_color_score (g1 g2 : String) : ℚ :=
  if g1 = "neutral" ∨ g2 = "neutral" then 3.0
  else if g1 = g2 then 2.5
  else 1.0

/-- `_outfit_color_score`: sum of pairwise color scores over the loop order. -/
def _outfit_color_score (groups : List String) : ℚ :=
  ((pairsOf groups).map (fun p => _pair_color_score p.1 p.2)).sum

/-- `_outfit_style_score`: mean pairwise cosine similarity; `sim` stands for
`_cosine_sim` on the external embedding vectors. -/
def _outfit_style_score {E : Type} (sim : E → E → ℚ) (embeds : List E) : ℚ :=
  let sims := (pairsOf embeds).map (fun p => sim p.1 p.2)
  if sims.isEmpty then 0.0 else sims.sum / sims.length

/-- The combo-generation part of `_build_30_outfits` (lines 180-200 of
`wardrobe_model.py`): structured top/bottom(/jacket) combos when both tops and
bottoms exist, otherwise all unordered pairs of items. -/
def combosOf {E : Type} (items : List (Item E)) : List (Combo E) :=
  let tops := items.filter (fun it => it.category == "top")
  let bottoms := items.filter (fun it => it.category == "bottom")
  let jackets := items.filter (fun it => it.category == "jacket")
  if !tops.isEmpty && !bottoms.isEmpty then
    tops.flatMap (fun t =>
      bottoms.flatMap (fun b =>
        _make_combo [t, b] :: jackets.map (fun j => _make_combo [t, b, j])))
  else
    (pairsOf items).map (fun p => _make_combo [p.1, p.2])

/-- The scoring part of `_build_30_outfits`: `w_color = 0.6`, `w_style = 0.4`,
`total = w_color * c_score + w_style * s_score`, paired with the combo ids. -/
def scoredOf {E : Type} (sim : E → E → ℚ) (items : List (Item E)) :
    List (ℚ × List String) :=
  (combosOf items).map (fun combo =>
    (0.6 * _outfit_color_score combo.groups
       + 0.4 * _outfit_style_score sim combo.embeds,
     combo.ids))

/-- `scored.sort(key=lambda x: x[0], reverse=True)`: stable descending sort by
total score. -/
def rankedOf {E : Type} (sim : E → E → ℚ) (items : List (Item E)) :
    List (ℚ × List String) :=
  (scoredOf sim items).mergeSort (fun a b => b.1 ≤ a.1)

/-- `top_k = min(31, len(scored)); best = [ids for (_, ids) in scored[:top_k]]`. -/
def selectedOf {E : Type} (sim : E → E → ℚ) (items : List (Item E)) :
    List (List String) :=
  let scored := rankedOf sim items
  (scored.take (min 31 scored.length)).map Prod.snd

/-- The padding loop
`while len(best) < 31 and best: best.extend(best[:(31 - len(best))])`.
The slice is evaluated before the extension begins, so one iteration maps
`best` to `best ++ best.take (31 - best.length)`. -/
def padLoop (best : List (List String)) : List (List String) :=
  if h : best.length < 31 ∧ best ≠ [] then
    padLoop (best ++ best.take (31 - best.length))
  else best
termination_by 31 - best.length
decreasing_by
  simp only [List.length_append, List.length_take]
  have hne : best.length ≠ 0 := fun hh => h.2 (List.length_eq_zero.mp hh)
  omega

/-- `_build_30_outfits` from `wardrobe_model.py`: empty-combo fallback to
single-item outfits (sliced to 30), otherwise rank, select, pad, and slice to
31. -/
def _build_30_outfits {E : Type} (sim : E → E → ℚ) (items : List (Item E)) :
    List (List String) :=
  if (combosOf items).isEmpty then
    (items.map (fun it => [it.id])).take 30
  else
    (padLoop (selectedOf sim items)).take 31

/-- `generate_capsule` from `wardrobe_model.py`: `[]` on an empty store,
otherwise the outfits enumerated from day 1 plus the id → item lookup table
(the Python dict is modelled as the association list in insertion order). -/
def generate_capsule {E : Type} (sim : E → E → ℚ) (store : List (Item E)) :
    List CapsuleDay × List (String × Item E) :=
  if store.isEmpty then ([], [])
  else
    (((_build_30_outfits sim store).enumFrom 1).map (fun p => ⟨p.1, p.2⟩),
     store.map (fun item => (item.id, item)))

/-- `categorize_color` from `outfitgenerator.py` (OpenCV hue scale 0-179;
`0 <= h` is automatic for naturals). -/
def categorize_color (hsv : Nat × Nat × Nat) : String :=
  let h := hsv.1
  let s := hsv.2.1
  let v := hsv.2.2
  if s < 15 || v < 20 then "neutral"
  else if (h ≤ 15 || (160 ≤ h && h ≤ 179)) && 40 < s then "warm"
  else if 15 < h && h ≤ 45 then "warm"
  else if 45 < h && h ≤ 120 then "cool"
  else if 120 < h && h ≤ 179 then "cool"
  else "neutral"

/-- Transcription of the ordered first-match rule set of spec section 4.2,
written from the spec wording, to be compared with `categorize_color`. -/
def spec_classify (h s v : Nat) : String :=
  if s < 15 ∨ v < 20 then "neutral"
  else if (h ≤ 15 ∨ (160 ≤ h ∧ h ≤ 179)) ∧ 40 < s then "warm"
  else if 15 < h ∧ h ≤ 45 then "warm"
  else if 45 < h ∧ h ≤ 120 then "cool"
  else if 120 < h ∧ h ≤ 179 then "cool"
  else "neutral"

/-- Condition under which `categorize_color` reaches its final `return
"neutral"` fallback: the conjunction of the negations of the five guard
conditions, in the code's order. -/
def hits_default (h s v : Nat) : Bool :=
  !(s < 15 || v < 20)
    && !((h ≤ 15 || (160 ≤ h && h ≤ 179)) && 40 < s)
    && !(15 < h && h ≤ 45)
    && !(45 < h && h ≤ 120)
    && !(120 < h && h ≤ 179)

/-- The insufficient-wardrobe message rendered by the `/capsule` route in
`app.py` (non-ASCII trailing emoji elided). -/
def insufficient_message : String :=
  "Please upload at least 10 wardrobe pieces (tops, bottoms, jackets) to generate a full 30-day capsule"

/-- `cute_quotes` from `app.py`. -/
def cute_quotes : List String :=
  ["Romanticize your everyday.",
   "Dress like you already made it.",
   "Soft outfit, sharp mind.",
   "You are the main character.",
   "One outfit at a time.",
   "Effortless, not careless.",
   "Cute clothes, serious goals."]

/-- `date(2025, 12, d).strftime("%A")` for the fixed December 2025 calendar of
`app.py`: December 1, 2025 is a Monday. -/
def weekday_name (day_num : Nat) : String :=
  (["Monday", "Tuesday", "Wednesday", "Thursday", "Friday", "Saturday",
    "Sunday"]).getD ((day_num - 1) % 7) ""

/-- One rendered calendar entry built by the `/capsule` route. -/
structure CalendarDay where
  day_number : Nat
  weekday : String
  quote : String
  outfit : CapsuleDay
deriving DecidableEq

/-- The data handed to `render_template("capsule.html", ...)`. -/
structure CapsuleView (E : Type) where
  days : List CalendarDay
  items : List (String × Item E)
  month_name : String
  year : Nat
  message : Option String
deriving DecidableEq

/-- The `/capsule` route of `app.py`: below 2 items it renders the empty state
with the descriptive message; otherwise it zips the generated capsule with the
December 2025 calendar and the quote cycle. -/
def capsule {E : Type} (sim : E → E → ℚ) (store : List (Item E)) :
    CapsuleView E :=
  if store.length < 2 then
    ⟨[], [], "December", 2025, some insufficient_message⟩
  else
    let res := generate_capsule sim store
    ⟨(res.1.enumFrom 0).map (fun p =>
        ⟨p.1 + 1, weekday_name (p.1 + 1),
         cute_quotes.getD (p.1 % cute_quotes.length) "", p.2⟩),
     res.2, "December", 2025, none⟩

/-- `b` is an initial segment of the infinite cyclic repetition of `s`. -/
def CyclicOf (s b : List (List String)) : Prop :=
  ∀ i, i < b.length → b.getD i [] = s.getD (i % s.length) []

/-- A concrete similarity function for evaluating the model (all pairs 0). -/
def sim0 : Unit → Unit → ℚ := fun _ _ => 0

/-- A concrete similarity function giving cosine similarity 0.9 to all pairs. -/
def sim9 : Unit → Unit → ℚ := fun _ _ => 9/10

/-- A concrete warm top. -/
def titem : Item Unit := ⟨"item1", "top", "warm", ()⟩

/-- A concrete neutral bottom. -/
def bitem : Item Unit := ⟨"item2", "bottom", "neutral", ()⟩

/-- A concrete two-item store: one top, one bottom. -/
def store2 : List (Item Unit) := [titem, bitem]

/-- A concrete four-item store: two tops, one bottom, one jacket. -/
def store4 : List (Item Unit) :=
  [⟨"item1", "top", "warm", ()⟩, ⟨"item2", "top", "cool", ()⟩,
   ⟨"item3", "bottom", "neutral", ()⟩, ⟨"item4", "jacket", "warm", ()⟩]

/-- Twice the number of index pairs of the nested pair loop is `n * (n - 1)`. -/
theorem pairsOf_two_mul_length {α : Type} (l : List α) :
    2 * (pairsOf l).length = l.length * (l.length - 1) := by
  induction l with
  | nil => simp [pairsOf]
  | cons x xs ih =>
    simp only [pairsOf, List.length_append, List.length_map, List.length_cons]
    rcases Nat.eq_zero_or_pos xs.length with h0 | hpos
    · rw [h0] at ih ⊢
      omega
    · simp only [Nat.add_sub_cancel]
      zify [hpos] at ih ⊢
      linear_combination ih

/-- Length of a `flatMap` whose pieces all have the same length. -/
theorem length_flatMap_const {α β : Type} (l : List α) (f : α → List β) (c : Nat)
    (hc : ∀ a ∈ l, (f a).length = c) : (l.flatMap f).length = l.length * c := by
  induction l with
  | nil => simp
  | cons a l ih =>
    simp only [List.flatMap_cons, List.length_append, List.length_cons]
    rw [hc a (List.mem_cons_self a l), ih (fun b hb => hc b (List.mem_cons_of_mem a hb)),
      Nat.succ_mul]
    omega

/-- The padding loop always terminates with exactly 31 entries when it starts
from a non-empty list of at most 31 entries. -/
theorem padLoop_length (b : List (List String)) :
    b ≠ [] → b.length ≤ 31 → (padLoop b).length = 31 := by
  induction b using padLoop.induct with
  | case1 x hx ih =>
    intro hne hle
    rw [padLoop, dif_pos hx]
    refine ih ?_ ?_
    · intro hcontra
      exact hx.2 ((List.append_eq_nil.mp hcontra).1)
    · simp only [List.length_append, List.length_take]
      omega
  | case2 x hx =>
    intro hne hle
    rw [padLoop, dif_neg hx]
    rcases Decidable.not_and_iff_or_not.mp hx with h1 | h2
    · omega
    · exact absurd hne h2

theorem CyclicOf_refl (s : List (List String)) : CyclicOf s s := by
  intro i hi
  rw [Nat.mod_eq_of_lt hi]

/-- Appending a front slice to a cyclic extension whose length is a multiple of
the base period stays a cyclic extension. -/
theorem CyclicOf_append (s b : List (List String)) (hb : CyclicOf s b)
    (hdvd : s.length ∣ b.length) (k : Nat) :
    CyclicOf s (b ++ b.take k) := by
  intro i hi
  simp only [List.length_append, List.length_take] at hi
  rw [List.getD_eq_getElem?_getD, List.getElem?_append]
  by_cases hlt : i < b.length
  · rw [if_pos hlt, ← List.getD_eq_getElem?_getD]
    exact hb i hlt
  · rw [if_neg hlt, List.getElem?_take, if_pos (by omega)]
    have htb : i - b.length < b.length := by omega
    obtain ⟨q, hq⟩ := hdvd
    have hmod : i % s.length = (i - b.length) % s.length := by
      conv_lhs => rw [show i = s.length * q + (i - b.length) by omega]
      rw [Nat.mul_add_mod]
    rw [hmod, ← List.getD_eq_getElem?_getD]
    exact hb (i - b.length) htb

/-- The padding loop preserves being a cyclic extension of the start list: each
iteration appends at a position that is a multiple of the period, except the
final capped iteration after which the loop exits. -/
theorem padLoop_cyclic (s : List (List String)) (b : List (List String)) :
    CyclicOf s b → (s.length ∣ b.length ∨ b.length = 31) →
    CyclicOf s (padLoop b) := by
  induction b using padLoop.induct with
  | case1 x hx ih =>
    intro hcyc hdvd
    rw [padLoop, dif_pos hx]
    have hdvd' : s.length ∣ x.length := by
      rcases hdvd with h | h
      · exact h
      · omega
    refine ih (CyclicOf_append s x hcyc hdvd' _) ?_
    simp only [List.length_append, List.length_take]
    rcases le_or_lt (31 - x.length) x.length with hle | hlt
    · right; omega
    · left
      have : x.length + min (31 - x.length) x.length = 2 * x.length := by omega
      rw [this]
      exact Dvd.dvd.mul_left hdvd' 2
  | case2 x hx =>
    intro hcyc _
    rw [padLoop, dif_neg hx]
    exact hcyc

/-- The selection keeps `min 31 (number of combos)` entries. -/
theorem selectedOf_length {E : Type} (sim : E → E → ℚ) (items : List (Item E)) :
    (selectedOf sim items).length = min 31 (combosOf items).length := by
  simp only [selectedOf, rankedOf, scoredOf, List.length_map, List.length_take,
    List.length_mergeSort]
  omega

theorem combosOf_nil {E : Type} : combosOf ([] : List (Item E)) = [] := rfl

/-- A single item yields no combo: the structured branch needs both a top and a
bottom (one item cannot be both), and there is no pair. -/
theorem combosOf_single {E : Type} (it : Item E) : combosOf [it] = [] := by
  by_cases ht : it.category = "top"
  · have hb : (it.category == "bottom") = false := by simp [ht]
    simp [combosOf, pairsOf, hb]
  · have ht' : (it.category == "top") = false := by simp [ht]
    simp [combosOf, pairsOf, ht']

/-- On a one-item store `_build_30_outfits` takes the single-item fallback and
returns that item alone, unpadded. -/
theorem build_single {E : Type} (sim : E → E → ℚ) (it : Item E) :
    _build_30_outfits sim [it] = [[it.id]] := by
  rw [_build_30_outfits, if_pos (by rw [combosOf_single]; rfl)]
  rfl

/-- The day list of `generate_capsule` pairs day `i + 1` with the `i`-th built
outfit. -/
theorem capsule_day_getD {E : Type} (sim : E → E → ℚ) (store : List (Item E))
    (hne : store.isEmpty = false) (i : Nat)
    (hi : i < (_build_30_outfits sim store).length) :
    (generate_capsule sim store).1.getD i ⟨0, []⟩ =
      ⟨i + 1, (_build_30_outfits sim store).getD i []⟩ := by
  rw [generate_capsule, if_neg (by simp [hne])]
  simp only
  rw [List.getD_eq_getElem?_getD, List.getElem?_map, List.getElem?_enumFrom,
    List.getElem?_eq_getElem hi]
  simp only [Option.map_some', Option.getD_some]
  rw [List.getD_eq_getElem _ _ hi]
  congr 1
  omega

/-- C1: whenever the store holds at least the minimum 2 items and the
combinator yields at least one combo, the capsule day sequence produced by
`generate_capsule` has exactly the configured target length, the slice bound
31, however few distinct combos exist. -/
theorem capsule_length_invariant {E : Type} (sim : E → E → ℚ)
    (store : List (Item E)) (hmin : 2 ≤ store.length)
    (hcombo : combosOf store ≠ []) :
    (generate_capsule sim store).1.length = 31 := by
  have hne : store.isEmpty = false := by
    cases store with
    | nil => simp at hmin
    | cons a l => rfl
  rw [generate_capsule, if_neg (by simp [hne])]
  simp only [List.length_map, List.enumFrom_length]
  rw [_build_30_outfits, if_neg (by simpa [List.isEmpty_iff] using hcombo)]
  have hpos : 0 < (combosOf store).length := List.length_pos.mpr hcombo
  have hsel_ne : selectedOf sim store ≠ [] := by
    refine List.ne_nil_of_length_pos ?_
    rw [selectedOf_length]
    omega
  have hsel_le : (selectedOf sim store).length ≤ 31 := by
    rw [selectedOf_length]; omega
  rw [List.length_take, padLoop_length _ hsel_ne hsel_le]
  omega

theorem c1_witness :
    2 ≤ store2.length ∧ (generate_capsule sim0 store2).1.length = 31 :=
  ⟨by decide, capsule_length_invariant sim0 store2 (by decide) (by decide)⟩

/-- C2: when fewer combos exist than the target length, the padded output is
an exact cyclic repetition of the selected ranked list: for every day index
`i < 31`, day `i + 1` of the capsule carries the `(i mod n)`-th entry of the
`n` selected top-ranked combos — the repeated doubling loop followed by
truncation equals cyclic repetition of the selection. -/
theorem capsule_cyclic_padding {E : Type} (sim : E → E → ℚ)
    (store : List (Item E)) (hcombo : combosOf store ≠ [])
    (hfew : (combosOf store).length < 31) (i : Nat) (hi : i < 31) :
    (generate_capsule sim store).1.getD i ⟨0, []⟩ =
      ⟨i + 1, (selectedOf sim store).getD (i % (selectedOf sim store).length) []⟩ := by
  have hstore : store.isEmpty = false := by
    cases store with
    | nil => exact absurd combosOf_nil hcombo
    | cons a l => rfl
  have hpos : 0 < (combosOf store).length := List.length_pos.mpr hcombo
  have hsel_ne : selectedOf sim store ≠ [] := by
    refine List.ne_nil_of_length_pos ?_
    rw [selectedOf_length]
    omega
  have hsel_le : (selectedOf sim store).length ≤ 31 := by
    rw [selectedOf_length]; omega
  have hplen : (padLoop (selectedOf sim store)).length = 31 :=
    padLoop_length _ hsel_ne hsel_le
  have hbuild : _build_30_outfits sim store =
      (padLoop (selectedOf sim store)).take 31 := by
    rw [_build_30_outfits, if_neg (by simpa [List.isEmpty_iff] using hcombo)]
  have hblen : (_build_30_outfits sim store).length = 31 := by
    rw [hbuild, List.length_take, hplen]
    omega
  rw [capsule_day_getD sim store hstore i (by omega)]
  have hitems : (_build_30_outfits sim store).getD i [] =
      (selectedOf sim store).getD (i % (selectedOf sim store).length) [] := by
    rw [hbuild, List.getD_eq_getElem?_getD, List.getElem?_take, if_pos hi,
      ← List.getD_eq_getElem?_getD]
    exact padLoop_cyclic _ _ (CyclicOf_refl _) (Or.inl dvd_rfl) i (by omega)
  rw [hitems]

theorem c2_witness :
    (generate_capsule sim0 store2).1.getD 5 ⟨0, []⟩ = ⟨6, ["item1", "item2"]⟩ := by
  rw [capsule_cyclic_padding sim0 store2 (by decide) (by decide) 5 (by decide)]
  have hsel : selectedOf sim0 store2 = [["item1", "item2"]] := by
    simp [selectedOf, rankedOf, scoredOf, combosOf, _make_combo, pairsOf,
      store2, titem, bitem]
  rw [hsel]
  rfl

/-- C3: for `T` tops, `B` bottoms, `J` jackets and `N` total items, the
combinator produces exactly `T * B * (1 + J)` combos when `T > 0` and `B > 0`;
otherwise exactly `N * (N - 1) / 2` unordered pair combos when `N ≥ 2`;
otherwise the builder returns `N` single-item outfits. -/
theorem combinator_cardinality {E : Type} (sim : E → E → ℚ)
    (items : List (Item E)) :
    (0 < (items.filter fun it => it.category == "top").length →
     0 < (items.filter fun it => it.category == "bottom").length →
     (combosOf items).length =
       (items.filter fun it => it.category == "top").length *
         (items.filter fun it => it.category == "bottom").length *
         (1 + (items.filter fun it => it.category == "jacket").length)) ∧
    (((items.filter fun it => it.category == "top").length = 0 ∨
      (items.filter fun it => it.category == "bottom").length = 0) →
     2 ≤ items.length →
     (combosOf items).length = items.length * (items.length - 1) / 2) ∧
    (items.length ≤ 1 →
     _build_30_outfits sim items = items.map fun it => [it.id]) := by
  refine ⟨?_, ?_, ?_⟩
  · intro hT hB
    have ht' : (items.filter fun it => it.category == "top") ≠ [] :=
      List.ne_nil_of_length_pos hT
    have hb' : (items.filter fun it => it.category == "bottom") ≠ [] :=
      List.ne_nil_of_length_pos hB
    rw [combosOf, if_pos (by simp [List.isEmpty_iff, ht', hb'])]
    rw [length_flatMap_const _ _
      ((items.filter fun it => it.category == "bottom").length *
        (1 + (items.filter fun it => it.category == "jacket").length)) ?_]
    · ring
    · intro t _
      rw [length_flatMap_const _ _
        (1 + (items.filter fun it => it.category == "jacket").length) ?_]
      intro b _
      simp [Nat.add_comm]
  · intro hOr hN
    have hcond : ((!(items.filter fun it => it.category == "top").isEmpty) &&
        (!(items.filter fun it => it.category == "bottom").isEmpty)) = false := by
      rcases hOr with h0 | h0 <;>
        simp [List.isEmpty_iff, List.length_eq_zero.mp h0]
    rw [combosOf, if_neg (by rw [hcond]; exact Bool.false_ne_true)]
    rw [List.length_map]
    have := pairsOf_two_mul_length items
    omega
  · intro hlen
    match items, hlen with
    | [], _ => rfl
    | [x], _ => rw [build_single]; rfl

theorem c3_witness :
    (combosOf store4).length =
      (store4.filter fun it => it.category == "top").length *
        (store4.filter fun it => it.category == "bottom").length *
        (1 + (store4.filter fun it => it.category == "jacket").length) :=
  (combinator_cardinality sim0 store4).1 (by decide) (by decide)

/-- C4: `categorize_color` implements exactly the ordered first-match rule set
of spec section 4.2 on the OpenCV scales, and on the four literal test cases it
returns warm, cool, neutral, neutral respectively. -/
theorem classifier_matches_spec :
    (∀ h s v : Nat, h ≤ 179 → s ≤ 255 → v ≤ 255 →
      categorize_color (h, s, v) = spec_classify h s v) ∧
    categorize_color (0, 50, 100) = "warm" ∧
    categorize_color (90, 50, 100) = "cool" ∧
    categorize_color (50, 10, 100) = "neutral" ∧
    categorize_color (0, 255, 5) = "neutral" := by
  refine ⟨?_, by decide, by decide, by decide, by decide⟩
  intro h s v _ _ _
  simp only [categorize_color, spec_classify, Bool.or_eq_true, Bool.and_eq_true,
    decide_eq_true_eq]

theorem c4_witness : categorize_color (0, 50, 100) = spec_classify 0 50 100 :=
  classifier_matches_spec.1 0 50 100 (by decide) (by decide) (by decide)

/-- C5 counterexample: the in-range input `(h, s, v) = (0, 20, 100)` fails all
five listed rules of `categorize_color` and reaches the trailing fallback, so
the final default branch is reachable, refuting the claim. -/
theorem classifier_fallback_reached :
    hits_default 0 20 100 = true ∧ 0 ≤ 179 ∧ 20 ≤ 255 ∧ 100 ≤ 255 ∧
    categorize_color (0, 20, 100) = "neutral" := by decide

/-- C5 amended: on the OpenCV scales the final default branch of
`categorize_color` is reachable, exactly for the low-chroma red band with
`h ≤ 15`, `15 ≤ s ≤ 40` and `v ≥ 20`; every other in-range input matches one of
the five listed rules first. -/
theorem classifier_fallback_characterization (h s v : Nat) (hh : h ≤ 179)
    (hs : s ≤ 255) (hv : v ≤ 255) :
    hits_default h s v = true ↔ (h ≤ 15 ∧ 15 ≤ s ∧ s ≤ 40 ∧ 20 ≤ v) := by
  simp only [hits_default, Bool.and_eq_true, Bool.not_eq_true', Bool.or_eq_false_iff,
    Bool.and_eq_false_iff, decide_eq_false_iff_not, Bool.or_eq_true, Bool.and_eq_true,
    decide_eq_true_eq]
  constructor
  · intro hc; omega
  · intro hc; omega

theorem c5_witness : hits_default 0 20 100 = true :=
  (classifier_fallback_characterization 0 20 100 (by decide) (by decide)
    (by decide)).mpr (by decide)

/-- C6: the pairwise color score is 3.0 when either class is neutral, 2.5 on
equal non-neutral classes, 1.0 on distinct non-neutral classes, and is
symmetric in its two arguments. -/
theorem pair_color_score_table :
    (∀ g1 g2 : String, g1 = "neutral" ∨ g2 = "neutral" →
      _pair_color_score g1 g2 = 3) ∧
    (∀ g : String, g ≠ "neutral" → _pair_color_score g g = 5/2) ∧
    (∀ g1 g2 : String, g1 ≠ "neutral" → g2 ≠ "neutral" → g1 ≠ g2 →
      _pair_color_score g1 g2 = 1) ∧
    (∀ g1 g2 : String, _pair_color_score g1 g2 = _pair_color_score g2 g1) := by
  refine ⟨?_, ?_, ?_, ?_⟩
  · intro g1 g2 hg
    rw [_pair_color_score, if_pos hg]; norm_num
  · intro g hg
    rw [_pair_color_score, if_neg (by tauto), if_pos rfl]; norm_num
  · intro g1 g2 h1 h2 hne
    rw [_pair_color_score, if_neg (by tauto), if_neg hne]; norm_num
  · intro g1 g2
    unfold _pair_color_score
    split_ifs <;> first | rfl | tauto

theorem c6_witness : _pair_color_score "neutral" "warm" = 3 :=
  pair_color_score_table.1 "neutral" "warm" (Or.inl rfl)

/-- C7: a store of one warm top and one neutral bottom whose style vectors have
cosine similarity 0.9 yields exactly one 2-item combo, with color score 3.0,
style score 0.9 and total score `0.6 * 3.0 + 0.4 * 0.9 = 2.16 = 54/25`. -/
theorem end_to_end_scenario {E : Type} (sim : E → E → ℚ) (t b : Item E)
    (htc : t.category = "top") (htg : t.color_group = "warm")
    (hbc : b.category = "bottom") (hbg : b.color_group = "neutral")
    (hsim : sim t.embedding b.embedding = 9/10) :
    combosOf [t, b] = [_make_combo [t, b]] ∧
    _outfit_color_score (_make_combo [t, b]).groups = 3 ∧
    _outfit_style_score sim (_make_combo [t, b]).embeds = 9/10 ∧
    scoredOf sim [t, b] = [(54/25, [t.id, b.id])] := by
  have hc1 : (t.category == "bottom") = false := by simp [htc]
  have hc2 : (t.category == "jacket") = false := by simp [htc]
  have hc3 : (b.category == "top") = false := by simp [hbc]
  have hc4 : (b.category == "jacket") = false := by simp [hbc]
  have hcombos : combosOf [t, b] = [_make_combo [t, b]] := by
    simp [combosOf, htc, hbc, hc1, hc2, hc3, hc4]
  have hcolor : _outfit_color_score (_make_combo [t, b]).groups = 3 := by
    simp [_make_combo, _outfit_color_score, pairsOf, _pair_color_score, htg, hbg]
    norm_num
  have hstyle : _outfit_style_score sim (_make_combo [t, b]).embeds = 9/10 := by
    simp [_make_combo, _outfit_style_score, pairsOf, hsim]
  refine ⟨hcombos, hcolor, hstyle, ?_⟩
  rw [scoredOf, hcombos]
  simp only [List.map_cons, List.map_nil, hcolor, hstyle]
  norm_num [_make_combo]

theorem c7_witness :
    scoredOf sim9 [titem, bitem] = [(54/25, ["item1", "item2"])] :=
  (end_to_end_scenario sim9 titem bitem rfl rfl rfl rfl rfl).2.2.2

/-- C9: with fewer than the minimum 2 items, the `/capsule` route renders the
empty day sequence together with the descriptive insufficient-wardrobe message;
the route is a total function, so no error is raised and no partial capsule is
returned. -/
theorem insufficient_wardrobe {E : Type} (sim : E → E → ℚ)
    (store : List (Item E)) (hlt : store.length < 2) :
    (capsule sim store).days = [] ∧ (capsule sim store).items = [] ∧
    (capsule sim store).message = some insufficient_message := by
  rw [capsule, if_pos hlt]
  exact ⟨rfl, rfl, rfl⟩

theorem c9_witness :
    (capsule sim0 [titem]).days = [] ∧ (capsule sim0 [titem]).items = [] ∧
    (capsule sim0 [titem]).message = some insufficient_message :=
  insufficient_wardrobe sim0 [titem] (by decide)

/-- C10: on a one-item store, `generate_capsule` called directly returns
exactly one capsule day, day 1 carrying that item's id, because the
single-item fallback returns before the cyclic padding step; the output is not
padded to the target length and the function is total. -/
theorem single_item_capsule {E : Type} (sim : E → E → ℚ) (item : Item E) :
    generate_capsule sim [item] = ([⟨1, [item.id]⟩], [(item.id, item)]) := by
  rw [generate_capsule, if_neg (by exact fun hcontra => Bool.false_ne_true hcontra)]
  rw [build_single]
  rfl

end Wardrobe
